import Mathlib

/-!
Shallow embedding of the composite scoring and simulation engine of the
`yt_crawling` repository (files `models/roi_models.py`,
`routes/simulator_routes.py`, `utils/sentiment_analysis.py`), together with
theorems settling the specification claims about it.

Numbers: Python floats are modelled as exact rationals (`ℚ`), Python ints as
`ℤ`/`ℕ`.  `round(x, 2)` is Python's round-half-to-even; `int(x)` truncates
toward zero.  External collaborators (the brand-compatibility analyzer, the
video API, the comment classifier, the channel store) are modelled by their
recorded outcomes, passed in as environment values; fallible Python calls
become `Except String` values.
-/

namespace YtCrawl

/-- Python `round(q)` to an integer: round half to even (banker's rounding). -/
def roundHalfEven (q : ℚ) : ℤ :=
  let f : ℤ := ⌊q⌋
  let r : ℚ := q - f
  if r < 1/2 then f
  else if 1/2 < r then f + 1
  else if f % 2 = 0 then f else f + 1

/-- Python `round(q, 2)`: round to two decimal places, half to even. -/
def round2 (q : ℚ) : ℚ := (roundHalfEven (q * 100) : ℚ) / 100

/-- Python `int(q)`: truncation toward zero. -/
def pyint (q : ℚ) : ℤ := if 0 ≤ q then ⌊q⌋ else -⌊-q⌋

/-- `models/roi_models.py` `WeightConfig`: three float weights.  Pydantic
constrains each field to `[0, 1]` (`ge=0, le=1`); there is no constraint on
their sum anywhere in the model. -/
structure WeightConfig where
  brand_image_weight : ℚ
  sentiment_weight : ℚ
  roi_weight : ℚ
deriving DecidableEq, Repr

/-- The validation pydantic actually performs on a `WeightConfig`: each of the
three weights individually lies in `[0, 1]`.  (The model declares
`Field(ge=0, le=1)` per weight and nothing else; no sum check exists.) -/
def WeightConfig.fieldValid (w : WeightConfig) : Bool :=
  decide (0 ≤ w.brand_image_weight ∧ w.brand_image_weight ≤ 1 ∧
          0 ≤ w.sentiment_weight ∧ w.sentiment_weight ≤ 1 ∧
          0 ≤ w.roi_weight ∧ w.roi_weight ≤ 1)

/-- `models/roi_models.py` `calculate_total_score`: weighted sum of the three
sub-scores, rounded to two decimals.  Defined for every `WeightConfig`; the
function performs no validation of the weights. -/
def calculate_total_score (brand_score sentiment_score roi_score : ℚ)
    (weights : WeightConfig) : ℚ :=
  round2 (brand_score * weights.brand_image_weight +
          sentiment_score * weights.sentiment_weight +
          roi_score * weights.roi_weight)

/-- `models/roi_models.py` `assign_grade`: top-down threshold bands. -/
def assign_grade (score : ℚ) : String :=
  if score ≥ 90 then "S"
  else if score ≥ 80 then "A"
  else if score ≥ 70 then "B"
  else if score ≥ 60 then "C"
  else "D"

/-- Python `min(breakdown, key=breakdown.get)` over a dict in insertion order:
the first key attaining the minimum value.  (Python's `min` keeps the current
best on ties and replaces it only on a strictly smaller key value.)
Returns `none` on an empty list, where Python would raise `ValueError`. -/
def pyMinKey (l : List (String × ℚ)) : Option String :=
  match l with
  | [] => none
  | x :: xs => some (xs.foldl (fun best p => if p.2 < best.2 then p else best) x).1

/-- `models/roi_models.py` `generate_recommendation`: banding on the total
score; below 60 it names the minimum-value key of the breakdown dict.  Every
caller in the source passes a three-entry breakdown, so the empty-dict
`ValueError` branch of Python's `min` is unreachable; it is rendered here by
the `getD ""` default. -/
def generate_recommendation (score : ℚ) (breakdown : List (String × ℚ)) : String :=
  if score ≥ 90 then "🌟 최고 수준의 적합도! 적극 추천합니다."
  else if score ≥ 80 then "✅ 우수한 적합도! 협찬 진행을 권장합니다."
  else if score ≥ 70 then "👍 양호한 적합도. 협찬 고려 가능합니다."
  else if score ≥ 60 then "⚠️ 보통 수준. 신중한 검토가 필요합니다."
  else
    let min_key := (pyMinKey breakdown).getD ""
    "❌ 적합도 낮음. 특히 " ++ min_key ++ " 개선이 필요합니다."

/-- Result dict of `calculate_roi_score_from_engagement`. -/
structure ROIResult where
  estimated_views : ℤ
  estimated_engagement : ℤ
  cost_estimate : ℤ
  roi_score : ℚ
  engagement_rate : ℚ
deriving DecidableEq, Repr

/-- `models/roi_models.py` `calculate_roi_score_from_engagement`: projected
views are 20% of the subscriber count, projected engagement applies the
engagement rate to that, and the score is banded on cost-per-engagement with
knees at 1000 and 5000 (currency units); zero projected engagement scores 0.
The final score is clamped to `[0, 100]` and rounded to two decimals. -/
def calculate_roi_score_from_engagement (engagement_rate : ℚ)
    (subscriber_count : ℤ) (estimated_cost : ℤ) : ROIResult :=
  let estimated_views : ℤ := pyint ((subscriber_count : ℚ) * (2/10))
  let estimated_engagement : ℤ := pyint ((estimated_views : ℚ) * (engagement_rate / 100))
  let roi_score : ℚ :=
    if 0 < estimated_engagement then
      let cost_per_engagement : ℚ := (estimated_cost : ℚ) / (estimated_engagement : ℚ)
      if cost_per_engagement ≤ 1000 then 90 + (1000 - cost_per_engagement) / 100
      else if cost_per_engagement ≤ 5000 then 50 + (5000 - cost_per_engagement) / 100
      else max 10 (50 - (cost_per_engagement - 5000) / 200)
    else 0
  { estimated_views := estimated_views
    estimated_engagement := estimated_engagement
    cost_estimate := estimated_cost
    roi_score := round2 (min 100 (max 0 roi_score))
    engagement_rate := engagement_rate }

/-- The per-comment classification produced by the sentiment classifier
(an external collaborator; a comment is represented by its classified label). -/
inductive SentimentLabel where
  | positive
  | negative
  | neutral
deriving DecidableEq, Repr

/-- Aggregate dict returned by `utils/sentiment_analysis.py`
`analyze_comments_batch_kobert` (the fields the core consumes). -/
structure BatchSentimentResult where
  positive : ℕ
  negative : ℕ
  neutral : ℕ
  positive_ratio : ℚ
  negative_ratio : ℚ
  neutral_ratio : ℚ
  sentiment_score : ℚ
  total_comments : ℕ
deriving DecidableEq, Repr

/-- `utils/sentiment_analysis.py` `analyze_comments_batch_kobert`, with the
per-comment classifier (KoBERT or the dictionary fallback, an external
collaborator) abstracted into the input labels.  Aggregates label counts into
percentage ratios and the sentiment score
`round(clip(0, 100, (pos_ratio - neg_ratio + 100) / 2), 2)`; an empty batch
returns the neutral dict with score 50. -/
def analyze_comments_batch_kobert (comments : List SentimentLabel) :
    BatchSentimentResult :=
  match comments with
  | [] =>
    { positive := 0, negative := 0, neutral := 0
      positive_ratio := 0, negative_ratio := 0, neutral_ratio := 0
      sentiment_score := 50, total_comments := 0 }
  | _ :: _ =>
    let pos_count := (comments.filter (· = SentimentLabel.positive)).length
    let neg_count := (comments.filter (· = SentimentLabel.negative)).length
    let neu_count := (comments.filter (· = SentimentLabel.neutral)).length
    let total := comments.length
    let pos_ratio : ℚ := ((pos_count : ℚ) / (total : ℚ)) * 100
    let neg_ratio : ℚ := ((neg_count : ℚ) / (total : ℚ)) * 100
    let neu_ratio : ℚ := ((neu_count : ℚ) / (total : ℚ)) * 100
    let sentiment_score : ℚ := (pos_ratio - neg_ratio + 100) / 2
    let sentiment_score : ℚ := max 0 (min 100 sentiment_score)
    { positive := pos_count, negative := neg_count, neutral := neu_count
      positive_ratio := round2 pos_ratio
      negative_ratio := round2 neg_ratio
      neutral_ratio := round2 neu_ratio
      sentiment_score := round2 sentiment_score
      total_comments := total }

/-- `db/db.py` `Influencer`: the persisted channel record (fields the
simulator consumes). -/
structure Influencer where
  channel_id : String
  title : Option String
  description : Option String
  subscriber_count : Option ℤ
  thumbnail_url : Option String
  category : Option String
  estimated_price : Option String
  engagement_rate : Option ℚ
deriving DecidableEq, Repr

/-- `models/roi_models.py` `BrandImageScore` (the `detailed_analysis` dict,
unused by the scoring logic, is omitted). -/
structure BrandImageScore where
  channel_id : String
  brand_name : String
  overall_score : ℚ
  image_similarity : ℚ
  text_similarity : ℚ
  tone_match : ℚ
  category_match : ℚ
  analysis_method : String
deriving DecidableEq, Repr

/-- `models/roi_models.py` `SentimentScore`. -/
structure SentimentScore where
  channel_id : String
  positive_ratio : ℚ
  negative_ratio : ℚ
  neutral_ratio : ℚ
  sentiment_score : ℚ
  total_comments : ℕ
  videos_analyzed : ℕ
deriving DecidableEq, Repr

/-- `models/roi_models.py` `ROIEstimate`. -/
structure ROIEstimate where
  channel_id : String
  estimated_views : ℤ
  estimated_engagement : ℤ
  cost_estimate : ℤ
  roi_score : ℚ
  engagement_rate : ℚ
deriving DecidableEq, Repr

/-- `models/roi_models.py` `TotalScore`. -/
structure TotalScore where
  channel_id : String
  channel_title : Option String
  thumbnail_url : Option String
  brand_image_score : ℚ
  sentiment_score : ℚ
  roi_score : ℚ
  weights : WeightConfig
  total_score : ℚ
  subscriber_count : Option ℤ
  engagement_rate : Option ℚ
  estimated_cost : ℤ
  grade : String
  recommendation : String
deriving DecidableEq, Repr

/-- `models/roi_models.py` `SimulatorResponse` (the wall-clock
`processing_time_seconds` field is omitted from the embedding). -/
structure SimulatorResponse where
  channel_id : String
  channel_title : Option String
  brand_image : BrandImageScore
  sentiment : SentimentScore
  roi_estimate : ROIEstimate
  total_score : TotalScore
  errors : List String
deriving DecidableEq, Repr

/-- `models/roi_models.py` `SimulatorRequest`. -/
structure SimulatorRequest where
  channel_id : String
  brand_name : String
  brand_description : String
  brand_tone : String
  brand_category : String
  brand_image_url : Option String
  brand_image_base64 : Option String
  num_videos : ℕ := 3
  max_comments_per_video : ℕ := 200
  weights : WeightConfig
deriving DecidableEq, Repr

/-- `models/roi_models.py` `CompareWeightsRequest`. -/
structure CompareWeightsRequest where
  channel_id : String
  brand_name : String
  brand_description : String
  brand_tone : String
  brand_category : String
  weight_configs : List WeightConfig
  brand_image_url : Option String
deriving DecidableEq, Repr

/-- Output of the external `utils/brand_analysis.py`
`analyze_brand_compatibility` call (the fields
`routes/simulator_routes.py` reads from the result dict). -/
structure BrandAnalysisResult where
  channel_id : String
  brand_name : String
  overall_score : ℚ
  image_similarity : ℚ
  text_similarity : ℚ
  tone_match : ℚ
  category_match : ℚ
deriving DecidableEq, Repr

/-- Recorded outcomes of the external calls made inside the brand stage:
the uploads-playlist lookup (`none` models a missing playlist, which raises a
404 inside the stage) and the brand-compatibility analyzer call (`Except`
models an analyzer exception). -/
structure BrandEnv where
  uploadsPlaylist : Option String
  analyzerResult : Except String BrandAnalysisResult
deriving Repr

/-- Recorded outcomes of the external calls made inside the sentiment stage:
the uploads-playlist lookup and, per recent video, the comment fetch -- each
fetched comment carried as its classified label. -/
structure SentimentEnv where
  uploadsPlaylist : Option String
  videoFetches : List (Except String (List SentimentLabel))
deriving Repr

/-- The whole external world of one simulation run: the channel-store lookup
result and the brand/sentiment stage environments. -/
structure Env where
  influencer : Option Influencer
  brandEnv : BrandEnv
  sentimentEnv : SentimentEnv
deriving Repr

/-- `routes/simulator_routes.py` `analyze_brand_image_compatibility`: the
whole body runs inside `try`, and the `except Exception` arm returns a
neutral `BrandImageScore` tagged `analysis_method = "error_fallback"` no
matter what failed (missing channel, missing playlist, analyzer exception).
Consequently the function is total: it never raises to its caller. -/
def analyze_brand_image_compatibility (channel_id brand_name : String)
    (influencer : Option Influencer) (env : BrandEnv) : BrandImageScore :=
  let attempt : Except String BrandImageScore :=
    match influencer with
    | none => Except.error "채널을 찾을 수 없습니다"
    | some _ =>
      match env.uploadsPlaylist with
      | none => Except.error "채널 영상을 찾을 수 없습니다"
      | some _ =>
        match env.analyzerResult with
        | Except.error e => Except.error e
        | Except.ok r =>
          Except.ok
            { channel_id := r.channel_id
              brand_name := r.brand_name
              overall_score := r.overall_score
              image_similarity := r.image_similarity
              text_similarity := r.text_similarity
              tone_match := r.tone_match
              category_match := r.category_match
              analysis_method := "clip_sbert" }
  match attempt with
  | Except.ok score => score
  | Except.error _ =>
    { channel_id := channel_id
      brand_name := brand_name
      overall_score := 50
      image_similarity := 50
      text_similarity := 50
      tone_match := 50
      category_match := 50
      analysis_method := "error_fallback" }

/-- `routes/simulator_routes.py` `perform_sentiment_analysis`: raises (here:
`Except.error`) when the uploads playlist or the recent-video list is missing
or when no comments were collected across the sampled videos; otherwise
aggregates all fetched comments through `analyze_comments_batch_kobert`.
Per-video fetch failures are swallowed (`continue`) and only reduce
`videos_analyzed`. -/
def perform_sentiment_analysis (channel_id : String) (env : SentimentEnv) :
    Except String SentimentScore :=
  match env.uploadsPlaylist with
  | none => Except.error "채널의 업로드 플레이리스트를 찾을 수 없습니다"
  | some _ =>
    match env.videoFetches with
    | [] => Except.error "영상을 찾을 수 없습니다"
    | _ :: _ =>
      let collected := env.videoFetches.filterMap Except.toOption
      let all_comments := collected.flatten
      if all_comments.isEmpty then Except.error "댓글을 찾을 수 없습니다"
      else
        let result := analyze_comments_batch_kobert all_comments
        Except.ok
          { channel_id := channel_id
            positive_ratio := result.positive_ratio
            negative_ratio := result.negative_ratio
            neutral_ratio := result.neutral_ratio
            sentiment_score := result.sentiment_score
            total_comments := result.total_comments
            videos_analyzed := collected.length }

/-- `routes/simulator_routes.py` `estimate_roi`: the price-bracket table
`cost_map`, looked up with default 2,000,000. -/
def cost_map (price : String) : ℤ :=
  if price = "100만원" then 1000000
  else if price = "200만원" then 2000000
  else if price = "300만원" then 3000000
  else if price = "500만원" then 5000000
  else if price = "가격문의" then 5000000
  else if price = "가격 문의" then 5000000
  else 2000000

/-- `routes/simulator_routes.py` `estimate_roi`: raises when the channel
record is absent or when `engagement_rate`/`subscriber_count` is Python-falsy
(absent or zero); otherwise converts the price bracket through `cost_map` and
delegates to `calculate_roi_score_from_engagement`.
(`estimated_price or "가격 문의"` treats the empty string as absent too.) -/
def estimate_roi (channel_id : String) (influencer : Option Influencer) :
    Except String ROIEstimate :=
  match influencer with
  | none => Except.error "채널 정보를 찾을 수 없습니다"
  | some inf =>
    if inf.engagement_rate.getD 0 = 0 ∨ inf.subscriber_count.getD 0 = 0 then
      Except.error "참여율 또는 구독자 수 정보가 없습니다"
    else
      let price_str :=
        match inf.estimated_price with
        | none => "가격 문의"
        | some s => if s = "" then "가격 문의" else s
      let estimated_cost := cost_map price_str
      let roi_data := calculate_roi_score_from_engagement
        (inf.engagement_rate.getD 0) (inf.subscriber_count.getD 0) estimated_cost
      Except.ok
        { channel_id := channel_id
          estimated_views := roi_data.estimated_views
          estimated_engagement := roi_data.estimated_engagement
          cost_estimate := roi_data.cost_estimate
          roi_score := roi_data.roi_score
          engagement_rate := roi_data.engagement_rate }

/-- The neutral `SentimentScore` substituted by `run_simulator` when the
sentiment stage raises. -/
def fallbackSentiment (channel_id : String) : SentimentScore :=
  { channel_id := channel_id
    positive_ratio := 50
    negative_ratio := 25
    neutral_ratio := 25
    sentiment_score := 50
    total_comments := 0
    videos_analyzed := 0 }

/-- The neutral `ROIEstimate` substituted by `run_simulator` when the ROI
stage raises. -/
def fallbackROI (channel_id : String) : ROIEstimate :=
  { channel_id := channel_id
    estimated_views := 0
    estimated_engagement := 0
    cost_estimate := 2000000
    roi_score := 50
    engagement_rate := 0 }

/-- `routes/simulator_routes.py` `run_simulator`: fails fatally when the
channel record is absent; otherwise runs the three stages in order, each with
isolated failure handling, and combines the (possibly fallback) sub-scores.
The brand stage's `except` arm is unreachable because
`analyze_brand_image_compatibility` catches internally and is total, so a
brand-stage failure contributes nothing to `errors`; the sentiment and ROI
stages append their error strings on failure. -/
def run_simulator (req : SimulatorRequest) (env : Env) :
    Except String SimulatorResponse :=
  match env.influencer with
  | none => Except.error ("채널 " ++ req.channel_id ++ "를 찾을 수 없습니다")
  | some inf =>
    let brand_image := analyze_brand_image_compatibility
      req.channel_id req.brand_name env.influencer env.brandEnv
    let sentimentStage :=
      match perform_sentiment_analysis req.channel_id env.sentimentEnv with
      | Except.ok s => (s, ([] : List String))
      | Except.error e => (fallbackSentiment req.channel_id, ["감성분석 실패: " ++ e])
    let sentiment := sentimentStage.1
    let roiStage :=
      match estimate_roi req.channel_id env.influencer with
      | Except.ok r => (r, ([] : List String))
      | Except.error e => (fallbackROI req.channel_id, ["ROI 계산 실패: " ++ e])
    let roi_estimate := roiStage.1
    let errors := sentimentStage.2 ++ roiStage.2
    let total_score_value := calculate_total_score
      brand_image.overall_score sentiment.sentiment_score roi_estimate.roi_score
      req.weights
    let grade := assign_grade total_score_value
    let recommendation := generate_recommendation total_score_value
      [("brand_image", brand_image.overall_score),
       ("sentiment", sentiment.sentiment_score),
       ("roi", roi_estimate.roi_score)]
    let total_score : TotalScore :=
      { channel_id := req.channel_id
        channel_title := inf.title
        thumbnail_url := inf.thumbnail_url
        brand_image_score := brand_image.overall_score
        sentiment_score := sentiment.sentiment_score
        roi_score := roi_estimate.roi_score
        weights := req.weights
        total_score := total_score_value
        subscriber_count := inf.subscriber_count
        engagement_rate := inf.engagement_rate
        estimated_cost := roi_estimate.cost_estimate
        grade := grade
        recommendation := recommendation }
    Except.ok
      { channel_id := req.channel_id
        channel_title := inf.title
        brand_image := brand_image
        sentiment := sentiment
        roi_estimate := roi_estimate
        total_score := total_score
        errors := errors }

/-- One entry of the `comparisons` list returned by `compare_weights`. -/
structure Comparison where
  weights : WeightConfig
  total_score : ℚ
  grade : String
  recommendation : String
deriving DecidableEq, Repr

/-- Response dict of `compare_weights`: the base sub-scores are returned once,
as the triple (brand_image, sentiment, roi). -/
structure CompareWeightsResponse where
  channel_id : String
  channel_title : Option String
  base_scores : ℚ × ℚ × ℚ
  comparisons : List Comparison
deriving DecidableEq, Repr

/-- The `SimulatorRequest` that `compare_weights` builds for its single base
run: the comparison request's descriptors with the given weight configuration
(`weight_configs[0]` at the call site) and the request-model defaults for
`num_videos`/`max_comments_per_video`. -/
def base_request (request : CompareWeightsRequest) (w : WeightConfig) :
    SimulatorRequest :=
  { channel_id := request.channel_id
    brand_name := request.brand_name
    brand_description := request.brand_description
    brand_tone := request.brand_tone
    brand_category := request.brand_category
    brand_image_url := request.brand_image_url
    brand_image_base64 := none
    weights := w }

/-- `routes/simulator_routes.py` `compare_weights`: runs `run_simulator` once
with `weight_configs[0]`, then recomputes total/grade/recommendation for each
configuration of the list from the cached base sub-scores.  An empty
`weight_configs` list makes `request.weight_configs[0]` raise `IndexError`
in Python, modelled as an `Except.error`. -/
def compare_weights (request : CompareWeightsRequest) (env : Env) :
    Except String CompareWeightsResponse :=
  match request.weight_configs with
  | [] => Except.error "IndexError: list index out of range"
  | w0 :: _ =>
    match run_simulator (base_request request w0) env with
    | Except.error e => Except.error e
    | Except.ok base_result =>
      let comparisons := request.weight_configs.map (fun weights =>
        let total := calculate_total_score
          base_result.brand_image.overall_score
          base_result.sentiment.sentiment_score
          base_result.roi_estimate.roi_score
          weights
        { weights := weights
          total_score := total
          grade := assign_grade total
          recommendation := generate_recommendation total
            [("brand_image", base_result.brand_image.overall_score),
             ("sentiment", base_result.sentiment.sentiment_score),
             ("roi", base_result.roi_estimate.roi_score)] : Comparison })
      Except.ok
        { channel_id := request.channel_id
          channel_title := base_result.channel_title
          base_scores := (base_result.brand_image.overall_score,
                          base_result.sentiment.sentiment_score,
                          base_result.roi_estimate.roi_score)
          comparisons := comparisons }

/-- Rounding an integer value changes nothing. -/
theorem roundHalfEven_intCast (m : ℤ) : roundHalfEven (m : ℚ) = m := by
  simp only [roundHalfEven, Int.floor_intCast]
  norm_num

/-- Rounding never goes below the floor. -/
theorem floor_le_roundHalfEven (q : ℚ) : ⌊q⌋ ≤ roundHalfEven q := by
  simp only [roundHalfEven]
  split_ifs <;> omega

/-- Rounding a value that is at most the integer `n` stays at most `n`. -/
theorem roundHalfEven_le {q : ℚ} {n : ℤ} (h : q ≤ (n : ℚ)) : roundHalfEven q ≤ n := by
  have hf : ⌊q⌋ ≤ n := by
    have h2 := Int.floor_le_floor h
    rwa [Int.floor_intCast] at h2
  have key : ¬(q - (⌊q⌋ : ℚ) < 1/2) → ⌊q⌋ + 1 ≤ n := by
    intro h1
    rcases eq_or_lt_of_le hf with heq | hlt
    · exfalso
      apply h1
      have hq : q - (⌊q⌋ : ℚ) ≤ 0 := by
        rw [heq]
        linarith
      linarith
    · omega
  simp only [roundHalfEven]
  split_ifs with h1 h2 h3
  · exact hf
  · exact key h1
  · exact hf
  · exact key h1

/-- Rounding a nonnegative value stays nonnegative. -/
theorem roundHalfEven_nonneg {q : ℚ} (h : 0 ≤ q) : 0 ≤ roundHalfEven q := by
  have h2 : (0 : ℤ) ≤ ⌊q⌋ := Int.floor_nonneg.mpr h
  have h3 := floor_le_roundHalfEven q
  omega

/-- Two-decimal rounding of an integer value changes nothing. -/
theorem round2_intCast (m : ℤ) : round2 (m : ℚ) = m := by
  have h : ((m : ℚ) * 100) = ((m * 100 : ℤ) : ℚ) := by push_cast; ring
  rw [round2, h, roundHalfEven_intCast]
  push_cast
  field_simp

/-- Two-decimal rounding of a nonnegative value stays nonnegative. -/
theorem round2_nonneg {q : ℚ} (h : 0 ≤ q) : 0 ≤ round2 q := by
  have h2 : (0 : ℤ) ≤ roundHalfEven (q * 100) := roundHalfEven_nonneg (by positivity)
  simp only [round2]
  positivity

/-- Two-decimal rounding of a value at most the integer `n` stays at most `n`. -/
theorem round2_le_intCast {q : ℚ} {n : ℤ} (h : q ≤ (n : ℚ)) : round2 q ≤ n := by
  have h1 : q * 100 ≤ ((n * 100 : ℤ) : ℚ) := by push_cast; nlinarith
  have h2 : roundHalfEven (q * 100) ≤ n * 100 := roundHalfEven_le h1
  have h3 : ((roundHalfEven (q * 100) : ℚ)) ≤ ((n * 100 : ℤ) : ℚ) := by exact_mod_cast h2
  simp only [round2]
  rw [div_le_iff₀ (by norm_num : (0:ℚ) < 100)]
  push_cast at h3 ⊢
  linarith

/-- Python `int()` agrees with the floor on nonnegative values. -/
theorem pyint_of_nonneg {q : ℚ} (h : 0 ≤ q) : pyint q = ⌊q⌋ := by
  simp [pyint, h]

/-!
Concrete fixtures used to instantiate the claim theorems: one channel record,
one set of healthy collaborator outcomes, and degraded variants.
-/

/-- Fixture: a channel record with full data (engagement rate 5%, one million
subscribers, price bracket 100만원). -/
def inf0 : Influencer :=
  { channel_id := "UC1", title := some "Chan", description := some "d"
    subscriber_count := some 1000000, thumbnail_url := some "t"
    category := some "뷰티", estimated_price := some "100만원"
    engagement_rate := some 5 }

/-- Fixture: a healthy brand-stage environment (analyzer returns 80/70/75/85/90). -/
def brandOk : BrandEnv :=
  { uploadsPlaylist := some "UU1"
    analyzerResult := Except.ok
      { channel_id := "UC1", brand_name := "B", overall_score := 80
        image_similarity := 70, text_similarity := 75, tone_match := 85
        category_match := 90 } }

/-- Fixture: a healthy sentiment-stage environment (one video; four comments
classified positive, negative, neutral, positive). -/
def sentOk : SentimentEnv :=
  { uploadsPlaylist := some "UU1"
    videoFetches := [Except.ok [SentimentLabel.positive, SentimentLabel.negative,
      SentimentLabel.neutral, SentimentLabel.positive]] }

/-- Fixture: a simulation request against `inf0` with the default weights. -/
def req0 : SimulatorRequest :=
  { channel_id := "UC1", brand_name := "B", brand_description := "d"
    brand_tone := "t", brand_category := "뷰티", brand_image_url := none
    brand_image_base64 := none
    weights := { brand_image_weight := 4/10, sentiment_weight := 3/10, roi_weight := 3/10 } }

/-- Fixture: the fully healthy environment. -/
def env0 : Env := { influencer := some inf0, brandEnv := brandOk, sentimentEnv := sentOk }

/-- Fixture: environment whose brand analyzer raises, everything else healthy. -/
def envBrandFail : Env :=
  { influencer := some inf0
    brandEnv := { uploadsPlaylist := some "UU1", analyzerResult := Except.error "analyzer down" }
    sentimentEnv := sentOk }

/-- Fixture: environment whose sentiment stage fails (no uploads playlist for
the comment fetch), brand and ROI healthy. -/
def envSentFail : Env :=
  { influencer := some inf0
    brandEnv := brandOk
    sentimentEnv := { uploadsPlaylist := none, videoFetches := [] } }

/-- The brand score produced from `brandOk`. -/
def brandScore0 : BrandImageScore :=
  { channel_id := "UC1", brand_name := "B", overall_score := 80
    image_similarity := 70, text_similarity := 75, tone_match := 85
    category_match := 90, analysis_method := "clip_sbert" }

/-- The sentiment score produced from `sentOk`: 2 positive, 1 negative and 1
neutral comment give ratios 50/25/25 and score `round((50-25+100)/2, 2) = 62.5`. -/
def sentScore0 : SentimentScore :=
  { channel_id := "UC1", positive_ratio := 50, negative_ratio := 25
    neutral_ratio := 25, sentiment_score := 125/2, total_comments := 4
    videos_analyzed := 1 }

/-- The ROI estimate produced from `inf0`: views = 200000, engagement = 10000,
cost = 1000000, cpe = 100 so score = 90 + (1000-100)/100 = 99. -/
def roiScore0 : ROIEstimate :=
  { channel_id := "UC1", estimated_views := 200000, estimated_engagement := 10000
    cost_estimate := 1000000, roi_score := 99, engagement_rate := 5 }

/-- The full response of a healthy run against `env0` under weights `w`. -/
def resp0w (w : WeightConfig) : SimulatorResponse :=
  { channel_id := "UC1", channel_title := some "Chan"
    brand_image := brandScore0, sentiment := sentScore0, roi_estimate := roiScore0
    total_score :=
      { channel_id := "UC1", channel_title := some "Chan", thumbnail_url := some "t"
        brand_image_score := 80, sentiment_score := 125/2, roi_score := 99
        weights := w
        total_score := calculate_total_score 80 (125/2) 99 w
        subscriber_count := some 1000000, engagement_rate := some 5
        estimated_cost := 1000000
        grade := assign_grade (calculate_total_score 80 (125/2) 99 w)
        recommendation := generate_recommendation (calculate_total_score 80 (125/2) 99 w)
          [("brand_image", 80), ("sentiment", 125/2), ("roi", 99)] }
    errors := [] }

/-- Evaluation: the brand stage on the healthy fixture. -/
theorem brand_stage_eval :
    analyze_brand_image_compatibility "UC1" "B" (some inf0) brandOk = brandScore0 := by
  simp [analyze_brand_image_compatibility, brandOk, brandScore0]

/-- Evaluation: the sentiment stage on the healthy fixture. -/
theorem sent_stage_eval :
    perform_sentiment_analysis "UC1" sentOk = Except.ok sentScore0 := by
  simp only [perform_sentiment_analysis, sentOk, List.filterMap, Except.toOption,
    List.flatten, analyze_comments_batch_kobert, List.filter, List.length,
    List.append, List.isEmpty, sentScore0]
  norm_num [round2, roundHalfEven]

/-- Evaluation: the sentiment stage on the degraded fixture fails with the
missing-playlist message. -/
theorem sent_stage_fail_eval :
    perform_sentiment_analysis "UC1" envSentFail.sentimentEnv =
      Except.error "채널의 업로드 플레이리스트를 찾을 수 없습니다" := by
  simp [perform_sentiment_analysis, envSentFail]

/-- Evaluation: the ROI stage on the healthy fixture. -/
theorem roi_stage_eval : estimate_roi "UC1" (some inf0) = Except.ok roiScore0 := by
  have hprice :
      (if ("100만원" : String) = "" then ("가격 문의" : String) else "100만원") = "100만원" := rfl
  have hcost : cost_map "100만원" = 1000000 := by decide
  simp only [estimate_roi, inf0, Option.getD, hprice, hcost, roiScore0]
  norm_num [calculate_roi_score_from_engagement, pyint, round2, roundHalfEven]

/-- Evaluation: a healthy run against `env0`, for an arbitrary weight
configuration (the three stages do not depend on the weights). -/
theorem run_eval_weights (w : WeightConfig) :
    run_simulator { req0 with weights := w } env0 = Except.ok (resp0w w) := by
  simp only [run_simulator, req0, env0]
  rw [brand_stage_eval, sent_stage_eval, roi_stage_eval]
  simp only [brandScore0, sentScore0, roiScore0, resp0w, inf0]
  simp

/-- Evaluation: a healthy run against `env0` under the default weights:
total = round(80*0.4 + 62.5*0.3 + 99*0.3, 2) = 80.45, grade A. -/
theorem run0_eval : run_simulator req0 env0 = Except.ok (resp0w req0.weights) := by
  have h : req0 = { req0 with weights := req0.weights } := rfl
  rw [h]
  exact run_eval_weights req0.weights

/-- Any two-decimal rounding result is an integer number of hundredths. -/
theorem round2_div100 (q : ℚ) : ∃ m : ℤ, round2 q = (m : ℚ) / 100 :=
  ⟨roundHalfEven (q * 100), rfl⟩

/-- Rounding a value clamped to `[0, 100]` stays nonnegative. -/
theorem round2_clamp_nonneg (x : ℚ) : 0 ≤ round2 (min 100 (max 0 x)) :=
  round2_nonneg (le_min (by norm_num) (le_max_left 0 _))

/-- Rounding a value clamped to `[0, 100]` stays at most 100. -/
theorem round2_clamp_le (x : ℚ) : round2 (min 100 (max 0 x)) ≤ 100 := by
  have h : min (100 : ℚ) (max 0 x) ≤ ((100 : ℤ) : ℚ) := by
    push_cast
    exact min_le_left _ _
  simpa using round2_le_intCast h

/-!
The specification's ROI algorithm (spec §4.3), written from the spec's words
so it can be compared against the source function
`calculate_roi_score_from_engagement`.
-/

/-- Result record of the specification's ROI algorithm; `cpe`/`cpv` use `none`
for the spec's +infinity case. -/
structure SpecROIResult where
  estimated_views : ℤ
  estimated_engagement : ℤ
  roi_score : ℚ
  cpe : Option ℚ
  cpv : Option ℚ
deriving DecidableEq, Repr

/-- The ROI estimator as the specification claims it (§4.3):
`estimated_views = floor(subscriberCount * (engagementRate/100) * 10)`,
`estimated_engagement = floor(estimated_views * (engagementRate/100))`,
`cpe = estimatedCost / estimated_engagement` (+infinity when the engagement is
zero, folding into the `cpe > 1000` branch), and the score bands
`cpe < 100 → 100`, `cpe > 1000 → 0`, else `100 - ((cpe-100)/900*100)`;
`roi_score` rounded to 2 decimals. -/
def spec_roi_estimator (engagementRate : ℚ) (subscriberCount estimatedCost : ℤ) :
    SpecROIResult :=
  let views : ℤ := ⌊(subscriberCount : ℚ) * (engagementRate / 100) * 10⌋
  let eng : ℤ := ⌊(views : ℚ) * (engagementRate / 100)⌋
  let roi : ℚ :=
    if eng = 0 then 0
    else
      let cpe : ℚ := (estimatedCost : ℚ) / (eng : ℚ)
      if cpe < 100 then 100
      else if cpe > 1000 then 0
      else 100 - ((cpe - 100) / 900 * 100)
  { estimated_views := views
    estimated_engagement := eng
    roi_score := round2 roi
    cpe := if eng = 0 then none else some (round2 ((estimatedCost : ℚ) / (eng : ℚ)))
    cpv := if views = 0 then none else some ((estimatedCost : ℚ) / (views : ℚ)) }

/-- C1 counterexample: at engagementRate = 1, subscriberCount = 1000000 and
estimatedCost = 2000000, the source's ROI function returns
`estimated_views = 200000` (20% of subscribers, not the claimed
`floor(1000000 * 0.01 * 10) = 100000`) and `roi_score = 90`
(cpe = 2000000/2000 = 1000 lands in the `90 + (1000-cpe)/100` band), while the
claimed formula yields `roi_score = 0` (its cpe = 2000 exceeds 1000); the
source result also carries no cpe/cpv fields. -/
theorem roi_claim_formula_counterexample :
    (calculate_roi_score_from_engagement 1 1000000 2000000).estimated_views = 200000 ∧
    (calculate_roi_score_from_engagement 1 1000000 2000000).roi_score = 90 ∧
    (spec_roi_estimator 1 1000000 2000000).estimated_views = 100000 ∧
    (spec_roi_estimator 1 1000000 2000000).roi_score = 0 := by
  norm_num [calculate_roi_score_from_engagement, spec_roi_estimator, pyint,
    round2, roundHalfEven]

/-- C1 amended: for positive engagement rate, subscriber count and cost, the
ROI estimator returns `estimated_views = floor(subscriberCount * 0.2)`,
`estimated_engagement = floor(estimated_views * engagementRate/100)`, echoes
the cost and rate, and its `roi_score` is 0 when the projected engagement is
zero and otherwise bands `cpe = estimatedCost/estimated_engagement` as
`90 + (1000-cpe)/100` for `cpe ≤ 1000`, `50 + (5000-cpe)/100` for
`cpe ≤ 5000`, and `max(10, 50 - (cpe-5000)/200)` above, clamped to `[0,100]`
and rounded to 2 decimals; no cpe/cpv fields are returned. -/
theorem roi_estimator_amended (er : ℚ) (sub cost : ℤ)
    (her : 0 < er) (hsub : 0 < sub) (hcost : 0 < cost) :
    (calculate_roi_score_from_engagement er sub cost).estimated_views =
      ⌊(sub : ℚ) * (2/10)⌋ ∧
    (calculate_roi_score_from_engagement er sub cost).estimated_engagement =
      ⌊(⌊(sub : ℚ) * (2/10)⌋ : ℚ) * (er / 100)⌋ ∧
    (calculate_roi_score_from_engagement er sub cost).cost_estimate = cost ∧
    (calculate_roi_score_from_engagement er sub cost).engagement_rate = er ∧
    ((calculate_roi_score_from_engagement er sub cost).estimated_engagement = 0 →
      (calculate_roi_score_from_engagement er sub cost).roi_score = 0) ∧
    (∀ eng : ℤ,
      (calculate_roi_score_from_engagement er sub cost).estimated_engagement = eng →
      0 < eng →
      (calculate_roi_score_from_engagement er sub cost).roi_score =
        round2 (min 100 (max 0
          (if (cost : ℚ) / (eng : ℚ) ≤ 1000 then
            90 + (1000 - (cost : ℚ) / (eng : ℚ)) / 100
          else if (cost : ℚ) / (eng : ℚ) ≤ 5000 then
            50 + (5000 - (cost : ℚ) / (eng : ℚ)) / 100
          else max 10 (50 - ((cost : ℚ) / (eng : ℚ) - 5000) / 200))))) := by
  have hv : (0 : ℚ) ≤ (sub : ℚ) * (2/10) := by positivity
  have hvint : pyint ((sub : ℚ) * (2/10)) = ⌊(sub : ℚ) * (2/10)⌋ := pyint_of_nonneg hv
  have hvnn : (0 : ℤ) ≤ ⌊(sub : ℚ) * (2/10)⌋ := Int.floor_nonneg.mpr hv
  have he : (0 : ℚ) ≤ (⌊(sub : ℚ) * (2/10)⌋ : ℚ) * (er / 100) := by
    apply mul_nonneg
    · exact_mod_cast hvnn
    · positivity
  have heint : pyint ((⌊(sub : ℚ) * (2/10)⌋ : ℚ) * (er / 100)) =
      ⌊(⌊(sub : ℚ) * (2/10)⌋ : ℚ) * (er / 100)⌋ := pyint_of_nonneg he
  simp only [calculate_roi_score_from_engagement, hvint, heint]
  refine ⟨trivial, trivial, trivial, trivial, ?_, ?_⟩
  · intro h0
    rw [if_neg (by omega)]
    have h100 : (max 0 (0:ℚ)) = 0 := by norm_num
    rw [h100]
    have hmin : (min 100 (0:ℚ)) = 0 := by norm_num
    rw [hmin]
    simpa using round2_intCast 0
  · intro eng heng hpos
    subst heng
    rw [if_pos hpos]

/-- C1 amended, witness: at (1, 1000000, 2000000) the views conjunct holds. -/
theorem roi_estimator_amended_witness :
    (calculate_roi_score_from_engagement 1 1000000 2000000).estimated_views =
      ⌊(1000000 : ℚ) * (2/10)⌋ :=
  (roi_estimator_amended 1 1000000 2000000 (by norm_num) (by norm_num) (by norm_num)).1

/-- C6: for every non-empty batch of classified comments, the aggregated
sentiment score is exactly `round(clip(0, 100, (pos% - neg% + 100)/2), 2)`;
a 100% positive batch scores 100, a 100% negative batch scores 0, and a batch
with equally many positive and negative comments scores 50. -/
theorem sentiment_batch_score_formula (comments : List SentimentLabel)
    (h : comments ≠ []) :
    (analyze_comments_batch_kobert comments).sentiment_score =
      round2 (max 0 (min 100
        ((((comments.filter (· = SentimentLabel.positive)).length : ℚ) /
            (comments.length : ℚ) * 100 -
          ((comments.filter (· = SentimentLabel.negative)).length : ℚ) /
            (comments.length : ℚ) * 100 + 100) / 2))) ∧
    ((∀ c ∈ comments, c = SentimentLabel.positive) →
      (analyze_comments_batch_kobert comments).sentiment_score = 100) ∧
    ((∀ c ∈ comments, c = SentimentLabel.negative) →
      (analyze_comments_batch_kobert comments).sentiment_score = 0) ∧
    ((comments.filter (· = SentimentLabel.positive)).length =
        (comments.filter (· = SentimentLabel.negative)).length →
      (analyze_comments_batch_kobert comments).sentiment_score = 50) := by
  obtain ⟨c, cs, rfl⟩ := List.exists_cons_of_ne_nil h
  have ht : ((c :: cs).length : ℚ) ≠ 0 := by
    simp [Nat.cast_add]
    positivity
  have main : (analyze_comments_batch_kobert (c :: cs)).sentiment_score =
      round2 (max 0 (min 100
        (((((c :: cs).filter (· = SentimentLabel.positive)).length : ℚ) /
            ((c :: cs).length : ℚ) * 100 -
          (((c :: cs).filter (· = SentimentLabel.negative)).length : ℚ) /
            ((c :: cs).length : ℚ) * 100 + 100) / 2))) := rfl
  refine ⟨main, ?_, ?_, ?_⟩
  · intro hall
    have hp : (c :: cs).filter (· = SentimentLabel.positive) = c :: cs := by
      apply List.filter_eq_self.mpr
      intro a ha
      simp [hall a ha]
    have hn : (c :: cs).filter (· = SentimentLabel.negative) = [] := by
      apply List.filter_eq_nil_iff.mpr
      intro a ha
      simp [hall a ha]
    rw [main, hp, hn]
    rw [div_self ht]
    norm_num
    simpa using round2_intCast 100
  · intro hall
    have hp : (c :: cs).filter (· = SentimentLabel.positive) = [] := by
      apply List.filter_eq_nil_iff.mpr
      intro a ha
      simp [hall a ha]
    have hn : (c :: cs).filter (· = SentimentLabel.negative) = c :: cs := by
      apply List.filter_eq_self.mpr
      intro a ha
      simp [hall a ha]
    rw [main, hp, hn]
    rw [div_self ht]
    norm_num
    simpa using round2_intCast 0
  · intro heq
    rw [main, heq, sub_self]
    norm_num
    simpa using round2_intCast 50

/-- C6 witness: a batch with one positive comment scores 100. -/
theorem sentiment_batch_score_formula_witness :
    (analyze_comments_batch_kobert [SentimentLabel.positive]).sentiment_score = 100 :=
  (sentiment_batch_score_formula [SentimentLabel.positive] (by simp)).2.1 (by simp)

/-- C7: `generate_recommendation` bands on the total score (≥90, ≥80, ≥70,
≥60 give the four fixed messages) and below 60 it names the first
minimum-value dimension of the breakdown in the fixed insertion order
(k1, k2, k3): ties are broken toward the earlier dimension. -/
theorem generate_recommendation_bands (score : ℚ) (k1 k2 k3 : String)
    (v1 v2 v3 : ℚ) :
    (90 ≤ score → generate_recommendation score [(k1, v1), (k2, v2), (k3, v3)] =
      "🌟 최고 수준의 적합도! 적극 추천합니다.") ∧
    (80 ≤ score → score < 90 →
      generate_recommendation score [(k1, v1), (k2, v2), (k3, v3)] =
      "✅ 우수한 적합도! 협찬 진행을 권장합니다.") ∧
    (70 ≤ score → score < 80 →
      generate_recommendation score [(k1, v1), (k2, v2), (k3, v3)] =
      "👍 양호한 적합도. 협찬 고려 가능합니다.") ∧
    (60 ≤ score → score < 70 →
      generate_recommendation score [(k1, v1), (k2, v2), (k3, v3)] =
      "⚠️ 보통 수준. 신중한 검토가 필요합니다.") ∧
    (score < 60 → v1 ≤ v2 → v1 ≤ v3 →
      generate_recommendation score [(k1, v1), (k2, v2), (k3, v3)] =
      "❌ 적합도 낮음. 특히 " ++ k1 ++ " 개선이 필요합니다.") ∧
    (score < 60 → v2 < v1 → v2 ≤ v3 →
      generate_recommendation score [(k1, v1), (k2, v2), (k3, v3)] =
      "❌ 적합도 낮음. 특히 " ++ k2 ++ " 개선이 필요합니다.") ∧
    (score < 60 → v3 < v1 → v3 < v2 →
      generate_recommendation score [(k1, v1), (k2, v2), (k3, v3)] =
      "❌ 적합도 낮음. 특히 " ++ k3 ++ " 개선이 필요합니다.") := by
  refine ⟨?_, ?_, ?_, ?_, ?_, ?_, ?_⟩
  · intro h
    simp only [generate_recommendation]
    rw [if_pos (by linarith : score ≥ 90)]
  · intro h1 h2
    simp only [generate_recommendation]
    rw [if_neg (by simp only [ge_iff_le]; linarith : ¬ score ≥ 90),
        if_pos (by linarith : score ≥ 80)]
  · intro h1 h2
    simp only [generate_recommendation]
    rw [if_neg (by simp only [ge_iff_le]; linarith : ¬ score ≥ 90),
        if_neg (by simp only [ge_iff_le]; linarith : ¬ score ≥ 80),
        if_pos (by linarith : score ≥ 70)]
  · intro h1 h2
    simp only [generate_recommendation]
    rw [if_neg (by simp only [ge_iff_le]; linarith : ¬ score ≥ 90),
        if_neg (by simp only [ge_iff_le]; linarith : ¬ score ≥ 80),
        if_neg (by simp only [ge_iff_le]; linarith : ¬ score ≥ 70),
        if_pos (by linarith : score ≥ 60)]
  · intro h h1 h2
    simp only [generate_recommendation, pyMinKey, List.foldl]
    rw [if_neg (by simp only [ge_iff_le]; linarith : ¬ score ≥ 90),
        if_neg (by simp only [ge_iff_le]; linarith : ¬ score ≥ 80),
        if_neg (by simp only [ge_iff_le]; linarith : ¬ score ≥ 70),
        if_neg (by simp only [ge_iff_le]; linarith : ¬ score ≥ 60),
        if_neg (not_lt.mpr h1)]
    rw [if_neg (not_lt.mpr h2 : ¬ v3 < (k1, v1).2)]
    rfl
  · intro h h1 h2
    simp only [generate_recommendation, pyMinKey, List.foldl]
    rw [if_neg (by simp only [ge_iff_le]; linarith : ¬ score ≥ 90),
        if_neg (by simp only [ge_iff_le]; linarith : ¬ score ≥ 80),
        if_neg (by simp only [ge_iff_le]; linarith : ¬ score ≥ 70),
        if_neg (by simp only [ge_iff_le]; linarith : ¬ score ≥ 60),
        if_pos h1]
    rw [if_neg (not_lt.mpr h2 : ¬ v3 < (k2, v2).2)]
    rfl
  · intro h h1 h2
    simp only [generate_recommendation, pyMinKey, List.foldl]
    rw [if_neg (by simp only [ge_iff_le]; linarith : ¬ score ≥ 90),
        if_neg (by simp only [ge_iff_le]; linarith : ¬ score ≥ 80),
        if_neg (by simp only [ge_iff_le]; linarith : ¬ score ≥ 70),
        if_neg (by simp only [ge_iff_le]; linarith : ¬ score ≥ 60)]
    rcases lt_or_le v2 v1 with hlt | hle
    · rw [if_pos hlt, if_pos (h2 : v3 < (k2, v2).2)]
      rfl
    · rw [if_neg (not_lt.mpr hle), if_pos (h1 : v3 < (k1, v1).2)]
      rfl

/-- C7 witness: with breakdown (brand 40, sentiment 90, roi 90) and a total
below 60, the recommendation names "brand". -/
theorem generate_recommendation_bands_witness :
    generate_recommendation 50 [("brand", 40), ("sentiment", 90), ("roi", 90)] =
      "❌ 적합도 낮음. 특히 brand 개선이 필요합니다." :=
  (generate_recommendation_bands 50 "brand" "sentiment" "roi" 40 90 90).2.2.2.2.1
    (by norm_num) (by norm_num) (by norm_num)

/-- C8: for every triple of sub-scores and every weight configuration (valid
or not -- the function performs no validation), `calculate_total_score` is
exactly the weighted sum `b*w_brand + s*w_sentiment + r*w_roi` rounded to two
decimals (an integer number of hundredths). -/
theorem calculate_total_score_weighted_sum (b s r : ℚ) (w : WeightConfig) :
    calculate_total_score b s r w =
      round2 (b * w.brand_image_weight + s * w.sentiment_weight +
              r * w.roi_weight) ∧
    ∃ m : ℤ, calculate_total_score b s r w = (m : ℚ) / 100 :=
  ⟨rfl, round2_div100 _⟩

/-- C9: `assign_grade` bands top-down with first match winning: ≥90 S, ≥80 A,
≥70 B, ≥60 C, otherwise D. -/
theorem assign_grade_bands (score : ℚ) :
    (90 ≤ score → assign_grade score = "S") ∧
    (80 ≤ score → score < 90 → assign_grade score = "A") ∧
    (70 ≤ score → score < 80 → assign_grade score = "B") ∧
    (60 ≤ score → score < 70 → assign_grade score = "C") ∧
    (score < 60 → assign_grade score = "D") := by
  refine ⟨?_, ?_, ?_, ?_, ?_⟩ <;>
    · intros
      simp only [assign_grade, ge_iff_le]
      split_ifs <;> first | rfl | (exfalso; linarith)

/-- C9 witness: the boundary cases 90.00 → S, 89.99 → A, 0 → D. -/
theorem assign_grade_bands_witness :
    assign_grade 90 = "S" ∧ assign_grade (8999/100) = "A" ∧ assign_grade 0 = "D" :=
  ⟨(assign_grade_bands 90).1 (by norm_num),
   (assign_grade_bands (8999/100)).2.1 (by norm_num) (by norm_num),
   (assign_grade_bands 0).2.2.2.2 (by norm_num)⟩

/-- C10: for nonnegative inputs the ROI scoring function is total and safe:
its `roi_score` lies in `[0, 100]`, is an integer number of hundredths
(two-decimal rounding), and whenever the projected engagement is not positive
(so the cost-per-engagement division is skipped) the score is exactly 0. -/
theorem roi_score_safety (er : ℚ) (sub cost : ℤ)
    (h1 : 0 ≤ er) (h2 : 0 ≤ sub) (h3 : 0 ≤ cost) :
    0 ≤ (calculate_roi_score_from_engagement er sub cost).roi_score ∧
    (calculate_roi_score_from_engagement er sub cost).roi_score ≤ 100 ∧
    (∃ m : ℤ, (calculate_roi_score_from_engagement er sub cost).roi_score =
      (m : ℚ) / 100) ∧
    (¬ 0 < (calculate_roi_score_from_engagement er sub cost).estimated_engagement →
      (calculate_roi_score_from_engagement er sub cost).roi_score = 0) := by
  refine ⟨?_, ?_, ?_, ?_⟩
  · exact round2_clamp_nonneg _
  · exact round2_clamp_le _
  · exact round2_div100 _
  · intro h0
    simp only [calculate_roi_score_from_engagement] at h0 ⊢
    rw [if_neg h0]
    norm_num
    simpa using round2_intCast 0

/-- C10 witness: at the all-zero input the projected engagement is 0 and the
returned score is 0. -/
theorem roi_score_safety_witness :
    (calculate_roi_score_from_engagement 0 0 0).roi_score = 0 :=
  (roi_score_safety 0 0 0 le_rfl le_rfl le_rfl).2.2.2
    (by norm_num [calculate_roi_score_from_engagement, pyint])

/-- Fixture: the brand-stage fallback record for request `req0`. -/
def brandFallback0 : BrandImageScore :=
  { channel_id := "UC1", brand_name := "B", overall_score := 50
    image_similarity := 50, text_similarity := 50, tone_match := 50
    category_match := 50, analysis_method := "error_fallback" }

/-- Evaluation: the brand stage on the failing fixture returns the fallback. -/
theorem brand_stage_fail_eval :
    analyze_brand_image_compatibility "UC1" "B" (some inf0) envBrandFail.brandEnv =
      brandFallback0 := by
  simp [analyze_brand_image_compatibility, envBrandFail, brandFallback0]

/-- C3 counterexample: in a run whose brand analyzer raises (fixture
`envBrandFail`), the substituted fallback is tagged
`analysis_method = "error_fallback"` -- not `"fallback"` -- and the run's
error list stays empty: the exception is swallowed inside
`analyze_brand_image_compatibility`, so no brand-stage error string is ever
appended. -/
theorem brand_fallback_tag_counterexample :
    (run_simulator req0 envBrandFail).map
      (fun r => (r.brand_image.analysis_method, r.brand_image.overall_score, r.errors)) =
      Except.ok ("error_fallback", 50, ([] : List String)) := by
  have hinf : envBrandFail.influencer = some inf0 := rfl
  have hsent : envBrandFail.sentimentEnv = sentOk := rfl
  simp only [run_simulator, req0, hinf, hsent]
  rw [brand_stage_fail_eval, sent_stage_eval, roi_stage_eval]
  simp [Except.map, brandFallback0]

/-- C3 amended: whenever the channel record exists and the brand analyzer
raises, the run substitutes a fallback BrandScore with overall 50 and all four
sub-fields 50 tagged `analysis_method = "error_fallback"` (not `"fallback"`),
appends no brand-stage error string (the exception never escapes the
brand wrapper), and continues to a complete result; any error strings present
come from the sentiment or ROI stages. -/
theorem brand_failure_swallowed (req : SimulatorRequest) (env : Env)
    (inf : Influencer) (e : String)
    (hinf : env.influencer = some inf)
    (hbrand : env.brandEnv.analyzerResult = Except.error e) :
    ∃ resp, run_simulator req env = Except.ok resp ∧
      resp.brand_image =
        { channel_id := req.channel_id, brand_name := req.brand_name
          overall_score := 50, image_similarity := 50, text_similarity := 50
          tone_match := 50, category_match := 50
          analysis_method := "error_fallback" } ∧
      (∀ msg ∈ resp.errors,
        (∃ s, msg = "감성분석 실패: " ++ s) ∨ (∃ s, msg = "ROI 계산 실패: " ++ s)) := by
  have hb : analyze_brand_image_compatibility req.channel_id req.brand_name
      (some inf) env.brandEnv =
      { channel_id := req.channel_id, brand_name := req.brand_name
        overall_score := 50, image_similarity := 50, text_similarity := 50
        tone_match := 50, category_match := 50
        analysis_method := "error_fallback" } := by
    simp only [analyze_brand_image_compatibility]
    cases hup : env.brandEnv.uploadsPlaylist <;> simp [hbrand]
  rcases hs : perform_sentiment_analysis req.channel_id env.sentimentEnv with e1 | s1 <;>
    rcases hr : estimate_roi req.channel_id (some inf) with e2 | r2
  · simp only [run_simulator, hinf, hb, hs, hr]
    refine ⟨_, rfl, rfl, ?_⟩
    intro msg hmsg
    rcases List.mem_append.mp hmsg with h | h
    · exact Or.inl ⟨e1, by simpa using h⟩
    · exact Or.inr ⟨e2, by simpa using h⟩
  · simp only [run_simulator, hinf, hb, hs, hr]
    refine ⟨_, rfl, rfl, ?_⟩
    intro msg hmsg
    exact Or.inl ⟨e1, by simpa using hmsg⟩
  · simp only [run_simulator, hinf, hb, hs, hr]
    refine ⟨_, rfl, rfl, ?_⟩
    intro msg hmsg
    exact Or.inr ⟨e2, by simpa using hmsg⟩
  · simp only [run_simulator, hinf, hb, hs, hr]
    refine ⟨_, rfl, rfl, ?_⟩
    intro msg hmsg
    simp at hmsg

/-- C3 amended, witness: the concrete failing-brand run. -/
theorem brand_failure_swallowed_witness :
    ∃ resp, run_simulator req0 envBrandFail = Except.ok resp ∧
      resp.brand_image =
        { channel_id := "UC1", brand_name := "B"
          overall_score := 50, image_similarity := 50, text_similarity := 50
          tone_match := 50, category_match := 50
          analysis_method := "error_fallback" } ∧
      (∀ msg ∈ resp.errors,
        (∃ s, msg = "감성분석 실패: " ++ s) ∨ (∃ s, msg = "ROI 계산 실패: " ++ s)) :=
  brand_failure_swallowed req0 envBrandFail inf0 "analyzer down" rfl rfl

/-- C5: when the channel record exists, the brand stage succeeds, the
sentiment stage raises with message `e` and the ROI stage succeeds, the run
still returns a complete composite result whose sentiment sub-score is the
neutral fallback (50/25/25, score 50, 0 comments) and whose error list is
exactly the single sentiment-stage entry; the failure never aborts the run. -/
theorem sentiment_failure_degrades (req : SimulatorRequest) (env : Env)
    (inf : Influencer) (br : BrandAnalysisResult) (u : String) (e : String)
    (roi : ROIEstimate)
    (hinf : env.influencer = some inf)
    (hup : env.brandEnv.uploadsPlaylist = some u)
    (hbr : env.brandEnv.analyzerResult = Except.ok br)
    (hsent : perform_sentiment_analysis req.channel_id env.sentimentEnv = Except.error e)
    (hroi : estimate_roi req.channel_id env.influencer = Except.ok roi) :
    ∃ resp, run_simulator req env = Except.ok resp ∧
      resp.sentiment =
        { channel_id := req.channel_id, positive_ratio := 50, negative_ratio := 25
          neutral_ratio := 25, sentiment_score := 50, total_comments := 0
          videos_analyzed := 0 } ∧
      resp.errors = ["감성분석 실패: " ++ e] ∧
      resp.brand_image.overall_score = br.overall_score ∧
      resp.roi_estimate = roi ∧
      resp.total_score.total_score =
        calculate_total_score br.overall_score 50 roi.roi_score req.weights := by
  have hb : analyze_brand_image_compatibility req.channel_id req.brand_name
      (some inf) env.brandEnv =
      { channel_id := br.channel_id, brand_name := br.brand_name
        overall_score := br.overall_score, image_similarity := br.image_similarity
        text_similarity := br.text_similarity, tone_match := br.tone_match
        category_match := br.category_match, analysis_method := "clip_sbert" } := by
    simp [analyze_brand_image_compatibility, hup, hbr]
  rw [hinf] at hroi
  simp only [run_simulator, hinf, hb, hsent, hroi, fallbackSentiment]
  exact ⟨_, rfl, rfl, rfl, rfl, rfl, rfl⟩

/-- C5 witness: the concrete failing-sentiment run against `envSentFail`. -/
theorem sentiment_failure_degrades_witness :
    ∃ resp, run_simulator req0 envSentFail = Except.ok resp ∧
      resp.sentiment.sentiment_score = 50 ∧ resp.errors.length = 1 := by
  obtain ⟨resp, h1, h2, h3, -, -, -⟩ :=
    sentiment_failure_degrades req0 envSentFail inf0
      { channel_id := "UC1", brand_name := "B", overall_score := 80
        image_similarity := 70, text_similarity := 75, tone_match := 85
        category_match := 90 }
      "UU1" "채널의 업로드 플레이리스트를 찾을 수 없습니다" roiScore0
      rfl rfl rfl sent_stage_fail_eval roi_stage_eval
  refine ⟨resp, h1, by rw [h2], ?_⟩
  rw [h3]
  rfl

/-- Fixture: a comparison request whose single weight configuration sums to
0.3, far outside the claimed 1.0 ± 0.01 tolerance. -/
def lowReq : CompareWeightsRequest :=
  { channel_id := "UC1", brand_name := "B", brand_description := "d"
    brand_tone := "t", brand_category := "뷰티"
    weight_configs :=
      [{ brand_image_weight := 1/10, sentiment_weight := 1/10, roi_weight := 1/10 }]
    brand_image_url := none }

/-- The base request that `compare_weights` builds for `lowReq` is `req0` with
the given weights. -/
theorem base_request_lowReq (w : WeightConfig) :
    base_request lowReq w = { req0 with weights := w } := rfl

/-- C2 counterexample: the configuration (0.1, 0.1, 0.1) sums to 0.3, outside
the claimed 1.0 ± 0.01 tolerance, yet it passes the only validation the model
performs (each field in [0,1]) and `compare_weights` scores with it
successfully -- no `InvalidWeightsError` exists anywhere in the pipeline. -/
theorem weight_sum_validation_counterexample :
    WeightConfig.fieldValid
      { brand_image_weight := 1/10, sentiment_weight := 1/10, roi_weight := 1/10 } = true ∧
    ¬ |((1:ℚ)/10 + 1/10 + 1/10) - 1| ≤ 1/100 ∧
    (compare_weights lowReq env0).isOk = true := by
  refine ⟨by simp [WeightConfig.fieldValid]; norm_num, ?_, ?_⟩
  · rw [show ((1:ℚ)/10 + 1/10 + 1/10) - 1 = -(7/10) by norm_num, abs_neg,
      abs_of_nonneg (by norm_num : (0:ℚ) ≤ 7/10)]
    norm_num
  · have hcfg : lowReq.weight_configs =
        [{ brand_image_weight := 1/10, sentiment_weight := 1/10, roi_weight := 1/10 }] := rfl
    simp only [compare_weights, hcfg]
    rw [base_request_lowReq, run_eval_weights]
    rfl

/-- C2 amended: no weight-sum validation exists.  The only validation is
pydantic's per-field range check (each weight individually in [0,1]); a
configuration list whose entries sum to anything is accepted whole, each entry
producing a scored comparison and none raising any error. -/
theorem weights_used_without_sum_validation (request : CompareWeightsRequest)
    (env : Env) (w0 : WeightConfig) (rest : List WeightConfig)
    (base : SimulatorResponse)
    (hcfg : request.weight_configs = w0 :: rest)
    (hrun : run_simulator (base_request request w0) env = Except.ok base) :
    ∃ out, compare_weights request env = Except.ok out ∧
      out.comparisons.length = request.weight_configs.length := by
  simp only [compare_weights, hcfg, hrun]
  exact ⟨_, rfl, by simp [hcfg]⟩

/-- C2 amended, witness: the sum-0.3 configuration is scored without error. -/
theorem weights_used_without_sum_validation_witness :
    ∃ out, compare_weights lowReq env0 = Except.ok out ∧
      out.comparisons.length = lowReq.weight_configs.length := by
  refine weights_used_without_sum_validation lowReq env0
    { brand_image_weight := 1/10, sentiment_weight := 1/10, roi_weight := 1/10 } []
    (resp0w { brand_image_weight := 1/10, sentiment_weight := 1/10, roi_weight := 1/10 })
    rfl ?_
  rw [base_request_lowReq]
  exact run_eval_weights _

/-- C4: `compare_weights` factors through a single `run_simulator` call made
with `weight_configs[0]` (so the analyzer stages run exactly once for the
whole comparison); it returns the base sub-scores once, and one
weights/total/grade/recommendation tuple per input configuration in input
order, each total equal to `calculate_total_score` applied to the same cached
base sub-scores under that entry's weights. -/
theorem compare_weights_single_run (request : CompareWeightsRequest) (env : Env)
    (w0 : WeightConfig) (rest : List WeightConfig) (base : SimulatorResponse)
    (hcfg : request.weight_configs = w0 :: rest)
    (hrun : run_simulator (base_request request w0) env = Except.ok base) :
    (base_request request w0).weights = w0 ∧
    ∃ out, compare_weights request env = Except.ok out ∧
      out.base_scores = (base.brand_image.overall_score,
        base.sentiment.sentiment_score, base.roi_estimate.roi_score) ∧
      out.comparisons.length = request.weight_configs.length ∧
      ∀ i : ℕ, out.comparisons[i]? = (request.weight_configs[i]?).map (fun w =>
        { weights := w
          total_score := calculate_total_score base.brand_image.overall_score
            base.sentiment.sentiment_score base.roi_estimate.roi_score w
          grade := assign_grade (calculate_total_score base.brand_image.overall_score
            base.sentiment.sentiment_score base.roi_estimate.roi_score w)
          recommendation := generate_recommendation (calculate_total_score
            base.brand_image.overall_score base.sentiment.sentiment_score
            base.roi_estimate.roi_score w)
            [("brand_image", base.brand_image.overall_score),
             ("sentiment", base.sentiment.sentiment_score),
             ("roi", base.roi_estimate.roi_score)] }) := by
  refine ⟨rfl, ?_⟩
  simp only [compare_weights, hcfg, hrun]
  refine ⟨_, rfl, rfl, by simp, ?_⟩
  intro i
  rw [List.getElem?_map]

/-- Fixture: a comparison request with three distinct weight configurations. -/
def cmpReq : CompareWeightsRequest :=
  { channel_id := "UC1", brand_name := "B", brand_description := "d"
    brand_tone := "t", brand_category := "뷰티"
    weight_configs :=
      [{ brand_image_weight := 5/10, sentiment_weight := 3/10, roi_weight := 2/10 },
       { brand_image_weight := 3/10, sentiment_weight := 3/10, roi_weight := 4/10 },
       { brand_image_weight := 2/10, sentiment_weight := 5/10, roi_weight := 3/10 }]
    brand_image_url := none }

/-- The base request that `compare_weights` builds for `cmpReq` is `req0` with
the given weights. -/
theorem base_request_cmpReq (w : WeightConfig) :
    base_request cmpReq w = { req0 with weights := w } := rfl

/-- C4 witness: three configurations against the healthy fixture give three
comparisons over the shared base sub-scores (80, 62.5, 99). -/
theorem compare_weights_single_run_witness :
    ∃ out, compare_weights cmpReq env0 = Except.ok out ∧
      out.base_scores = (80, 125/2, 99) ∧ out.comparisons.length = 3 := by
  obtain ⟨-, out, h1, h2, h3, -⟩ :=
    compare_weights_single_run cmpReq env0
      { brand_image_weight := 5/10, sentiment_weight := 3/10, roi_weight := 2/10 }
      [{ brand_image_weight := 3/10, sentiment_weight := 3/10, roi_weight := 4/10 },
       { brand_image_weight := 2/10, sentiment_weight := 5/10, roi_weight := 3/10 }]
      (resp0w { brand_image_weight := 5/10, sentiment_weight := 3/10, roi_weight := 2/10 })
      rfl
      (by rw [base_request_cmpReq]; exact run_eval_weights _)
  refine ⟨out, h1, ?_, h3.trans rfl⟩
  rw [h2]
  rfl

end YtCrawl
